import Mathlib

set_option linter.unusedVariables false

/-
Verification of the EcoEats repository: a shallow embedding of the
persistence layer, the gamification helpers, the AI wrapper functions and
the page-level aggregate queries, together with theorems settling the
stated behavioural claims.  Each definition is translated from the named
Python source file; fallible calls are modelled with Except or with an
explicit outcome parameter, SQLite tables are lists of row structures, and
machine integers are Int.
-/

namespace EcoEats

/- ------------------------------------------------------------------ -/
/- String helpers: Python str.strip and lexicographic comparison.      -/
/- ------------------------------------------------------------------ -/

/-- Whitespace characters removed by the Python str.strip method. -/
def isPySpace (ch : Char) : Bool :=
  ch == ' ' || ch == '\t' || ch == '\n' || ch == '\r' ||
  ch == Char.ofNat 11 || ch == Char.ofNat 12

/-- Embedding of the Python str.strip method: drop leading and trailing
whitespace. -/
def pyStrip (s : String) : String :=
  String.mk (((s.data.dropWhile isPySpace).reverse.dropWhile isPySpace).reverse)

/-- Lexicographic less-or-equal on character lists, the comparison SQLite
applies to TEXT values in a WHERE clause. -/
def leChars : List Char → List Char → Bool
  | [], _ => true
  | _ :: _, [] => false
  | a :: as, b :: bs => if a < b then true else if b < a then false else leChars as bs

/-- SQLite TEXT comparison of a stored date string against a cutoff:
cutoff is less-or-equal to the stored value. -/
def dateGE (stored cutoff : String) : Bool :=
  leChars cutoff.data stored.data

/- ------------------------------------------------------------------ -/
/- Base64 used when building the data URL for image requests.          -/
/- ------------------------------------------------------------------ -/

/-- Standard base64 alphabet. -/
def b64Alphabet : List Char :=
  "ABCDEFGHIJKLMNOPQRSTUVWXYZabcdefghijklmnopqrstuvwxyz0123456789+/".data

/-- Character of the base64 alphabet at a given index. -/
def b64Char (n : Nat) : Char :=
  b64Alphabet.getD n 'A'

/-- Base64 encoding of a byte sequence, three bytes at a time with
trailing padding. -/
def base64Encode : List Nat → List Char
  | [] => []
  | [a] =>
      [b64Char (a / 4), b64Char (a % 4 * 16), '=', '=']
  | [a, b] =>
      [b64Char (a / 4), b64Char (a % 4 * 16 + b / 16), b64Char (b % 16 * 4), '=']
  | a :: b :: c3 :: rest =>
      b64Char (a / 4) :: b64Char (a % 4 * 16 + b / 16) ::
      b64Char (b % 16 * 4 + c3 / 64) :: b64Char (c3 % 64) :: base64Encode rest

/-- Base64 encoding as a string. -/
def base64 (bytes : List Nat) : String :=
  String.mk (base64Encode bytes)

/- ------------------------------------------------------------------ -/
/- ISO date and datetime rendering (datetime.isoformat).               -/
/- ------------------------------------------------------------------ -/

/-- Left-pad the decimal rendering of a number with zeros to a given
width, as the Python date formatting does. -/
def padNum (width n : Nat) : String :=
  let s := toString n
  String.mk (List.replicate (width - s.length) '0') ++ s

/-- Calendar date as held by a Python datetime.date value. -/
structure Date where
  year : Nat
  month : Nat
  day : Nat
deriving DecidableEq, Repr

/-- Gregorian leap-year test. -/
def isLeap (y : Nat) : Bool :=
  (y % 4 == 0 && y % 100 != 0) || y % 400 == 0

/-- Number of days in a month of a given year. -/
def daysInMonth (y m : Nat) : Nat :=
  if m == 2 then (if isLeap y then 29 else 28)
  else if m == 4 || m == 6 || m == 9 || m == 11 then 30
  else 31

/-- The calendar successor of a date. -/
def nextDay (d : Date) : Date :=
  if d.day < daysInMonth d.year d.month then ⟨d.year, d.month, d.day + 1⟩
  else if d.month < 12 then ⟨d.year, d.month + 1, 1⟩
  else ⟨d.year + 1, 1, 1⟩

/-- Adding n days to a date, the semantics of date + timedelta(days=n). -/
def addDays (d : Date) : Nat → Date
  | 0 => d
  | n + 1 => nextDay (addDays d n)

/-- A date the Python datetime library can produce. -/
def Date.valid (d : Date) : Prop :=
  1 ≤ d.year ∧ d.year ≤ 9999 ∧ 1 ≤ d.month ∧ d.month ≤ 12 ∧
  1 ≤ d.day ∧ d.day ≤ daysInMonth d.year d.month

instance (d : Date) : Decidable d.valid := by
  unfold Date.valid; infer_instance

/-- Rendering of date.isoformat(), also of strftime with the
year-month-day format used by update_streak. -/
def Date.isoformat (d : Date) : String :=
  padNum 4 d.year ++ "-" ++ padNum 2 d.month ++ "-" ++ padNum 2 d.day

/-- Wall-clock instant as held by a Python datetime.datetime value. -/
structure DateTime where
  date : Date
  hour : Nat
  minute : Nat
  second : Nat
  microsecond : Nat
deriving DecidableEq, Repr

/-- An instant the Python datetime library can produce. -/
def DateTime.valid (t : DateTime) : Prop :=
  t.date.valid ∧ t.hour ≤ 23 ∧ t.minute ≤ 59 ∧ t.second ≤ 59 ∧
  t.microsecond ≤ 999999

instance (t : DateTime) : Decidable t.valid := by
  unfold DateTime.valid; infer_instance

/-- Rendering of datetime.isoformat(): the fractional part is omitted
exactly when the microsecond field is zero. -/
def DateTime.isoformat (t : DateTime) : String :=
  t.date.isoformat ++ "T" ++ padNum 2 t.hour ++ ":" ++ padNum 2 t.minute ++
  ":" ++ padNum 2 t.second ++
  (if t.microsecond == 0 then "" else "." ++ padNum 6 t.microsecond)

/- ------------------------------------------------------------------ -/
/- Chat-completion request model shared by the AI wrapper functions.   -/
/- ------------------------------------------------------------------ -/

/-- One part of a multimodal user message. -/
inductive ContentPart where
  | text (t : String)
  | image_url (url : String)
deriving DecidableEq, Repr

/-- Content of a chat message: a plain string or a list of parts. -/
inductive MsgContent where
  | str (s : String)
  | parts (ps : List ContentPart)
deriving DecidableEq, Repr

/-- One chat message of a completion request. -/
structure ChatMessage where
  role : String
  content : MsgContent
deriving DecidableEq, Repr

/-- A chat-completion request as assembled by the wrapper functions. -/
structure ChatRequest where
  model : String
  messages : List ChatMessage
  max_tokens : Nat
deriving DecidableEq, Repr

/-- Outcome of one external API call: the content of the first choice, or
an exception carrying its message. -/
inductive LLMOutcome where
  | ok (content : String)
  | exn (msg : String)
deriving DecidableEq, Repr

/-- What a wrapper leaves on the screen and returns: the st.error
messages it displayed and its return value. -/
structure UIResult where
  errors : List String
  value : String
deriving DecidableEq, Repr

/-- Request built by generate_ai_response in ecoeats.py lines 63 to 77. -/
def genRequest (prompt : String) (max_tokens : Nat) : ChatRequest :=
  { model := "gpt-4"
    messages :=
      [⟨"system", .str "You are a helpful assistant for an eco-friendly food tracking app."⟩,
       ⟨"user", .str prompt⟩]
    max_tokens := max_tokens }

/-- Embedding of generate_ai_response from ecoeats.py lines 63 to 77: one
call to the client; on success the stripped content, on any exception an
st.error message and the canned fallback string. -/
def generate_ai_response (llm : ChatRequest → LLMOutcome) (prompt : String)
    (max_tokens : Nat) : UIResult :=
  match llm (genRequest prompt max_tokens) with
  | .ok content => ⟨[], pyStrip content⟩
  | .exn e =>
      ⟨["Error in AI response generation: " ++ e],
       "I\x27m sorry, I couldn\x27t generate a response at this time."⟩

/-- Request built by analyze_image in ecoeats.py lines 79 to 102 and in
backup/bak/ai_utils.py lines 24 to 44 from the task text and the uploaded
image bytes. -/
def imgRequest (task : String) (image : List Nat) : ChatRequest :=
  { model := "gpt-4-vision-preview"
    messages :=
      [⟨"user", .parts
        [.text task,
         .image_url ("data:image/jpeg;base64," ++ base64 image)]⟩]
    max_tokens := 300 }

/-- Embedding of analyze_image from ecoeats.py lines 79 to 102 and
backup/bak/ai_utils.py lines 24 to 44. -/
def analyze_image (llm : ChatRequest → LLMOutcome) (image : List Nat)
    (task : String) : UIResult :=
  match llm (imgRequest task image) with
  | .ok content => ⟨[], pyStrip content⟩
  | .exn e =>
      ⟨["Error in image analysis: " ++ e],
       "I\x27m sorry, I couldn\x27t analyze the image at this time."⟩

/-- Fixed prompt text of the grocery list analysis. -/
def groceryTask : String :=
  "Analyze this grocery list image and provide sustainability recommendations. Consider packaging, local vs. imported items, and potential for food waste."

/-- Request built by analyze_grocery_list in ecoeats.py lines 104 to
130. -/
def groceryRequest (image : List Nat) : ChatRequest :=
  { model := "gpt-4-vision-preview"
    messages :=
      [⟨"user", .parts
        [.text groceryTask,
         .image_url ("data:image/jpeg;base64," ++ base64 image)]⟩]
    max_tokens := 300 }

/-- Embedding of analyze_grocery_list from ecoeats.py lines 104 to 130. -/
def analyze_grocery_list (llm : ChatRequest → LLMOutcome) (image : List Nat) :
    UIResult :=
  match llm (groceryRequest image) with
  | .ok content => ⟨[], pyStrip content⟩
  | .exn e =>
      ⟨["Error in grocery list analysis: " ++ e],
       "I\x27m sorry, I couldn\x27t analyze the grocery list at this time."⟩

/- ------------------------------------------------------------------ -/
/- SQLite row id assignment and UI messages.                           -/
/- ------------------------------------------------------------------ -/

/-- Rowid SQLite assigns to an insert that does not supply the integer
primary key: one more than the largest id in the table. -/
def freshId (ids : List Int) : Int :=
  ids.foldr max 0 + 1

/-- A user-facing message shown by st.success or st.error. -/
inductive UIMsg where
  | success (m : String)
  | error (m : String)
deriving DecidableEq, Repr

/-- Whether a message is the success form. -/
def UIMsg.isSuccess : UIMsg → Bool
  | .success _ => true
  | .error _ => false

/- ------------------------------------------------------------------ -/
/- The ecoeats.py tables and the aggregate queries (C2).               -/
/- ------------------------------------------------------------------ -/

/-- Row of the food_waste table of ecoeats.py (schema line 44). -/
structure FoodWasteRow where
  id : Int
  item : String
  quantity : Int
  quantity_type : String
  date : String
  image : Option (List Nat)
deriving DecidableEq, Repr

/-- Row of the meals table of ecoeats.py (schema line 46). -/
structure MealRow where
  id : Int
  meal : String
  nutrition : String
  date : String
  image : Option (List Nat)
  quantity : Option Int
deriving DecidableEq, Repr

/-- Row of the goals table of ecoeats.py (schema line 48). -/
structure GoalRow where
  id : Int
  type : String
  goal : String
  recommendations : String
  date : String
  completed : Bool
  potential_savings : Option String
deriving DecidableEq, Repr

/-- The ecoeats.py database state used by the home page and the weekly
report. -/
structure DB where
  food_waste : List FoodWasteRow
  meals : List MealRow
  goals : List GoalRow
deriving Repr

/-- SQLite semantics of SELECT COUNT(*) over a row list. -/
def sqlCountStar {α : Type} (rows : List α) : Int :=
  Int.ofNat rows.length

/-- SQLite semantics of SELECT SUM(v): NULL over the empty set, the sum
otherwise. -/
def sqlSum (vals : List Int) : Option Int :=
  match vals with
  | [] => none
  | _ => some vals.sum

/-- The three metrics of the home page of ecoeats.py lines 170 to 185. -/
structure HomeMetrics where
  items_logged : Int
  meals_tracked : Int
  goals_completed : Int
deriving DecidableEq, Repr

/-- Embedding of the metric queries of home in ecoeats.py lines 170 to
185: COUNT over food_waste, COUNT over meals, COUNT over goals filtered
on the completed flag. -/
def home (db : DB) : HomeMetrics :=
  { items_logged := sqlCountStar db.food_waste
    meals_tracked := sqlCountStar db.meals
    goals_completed := sqlCountStar (db.goals.filter fun g => g.completed) }

/-- Embedding of the weekly waste statistics query of weekly_report in
ecoeats.py lines 320 to 321: COUNT and SUM of quantity over food_waste
rows whose date is at least the seven-day cutoff string. -/
def weekly_report_waste (db : DB) (cutoff : String) : Int × Option Int :=
  let rows := db.food_waste.filter fun r => dateGE r.date cutoff
  (sqlCountStar rows, sqlSum (rows.map fun r => r.quantity))

/- ------------------------------------------------------------------ -/
/- The ecoeats.py insert operations with their date renderings (C6).   -/
/- ------------------------------------------------------------------ -/

/-- Row of the challenges table of ecoeats.py (schema line 50). -/
structure ChallengeRow where
  id : Int
  challenge : String
  start_date : String
  end_date : String
  completed : Bool
deriving DecidableEq, Repr

/-- The two ecoeats.py tables whose insert statements the claim cites. -/
structure LogDB where
  food_waste : List FoodWasteRow
  challenges : List ChallengeRow

/-- Embedding of the Log Waste insert of ecoeats.py lines 230 to 234:
the id column is never supplied (SQLite assigns the next rowid) and the
date column stores datetime.now().isoformat(). -/
def logWaste (db : LogDB) (item : String) (quantity : Int)
    (quantity_type : String) (now : DateTime) (image : Option (List Nat)) :
    LogDB :=
  { db with food_waste := db.food_waste ++
      [⟨freshId (db.food_waste.map fun r => r.id), item, quantity,
        quantity_type, now.isoformat, image⟩] }

/-- Embedding of the insert of create_new_challenge, ecoeats.py lines
531 to 544: the id is never supplied, start_date is
date.today().isoformat(), end_date is (start + timedelta(days=7))
rendered the same way, and completed starts false. -/
def create_new_challenge (db : LogDB) (new_challenge : String)
    (today : Date) : LogDB :=
  { db with challenges := db.challenges ++
      [⟨freshId (db.challenges.map fun r => r.id), new_challenge,
        today.isoformat, (addDays today 7).isoformat, false⟩] }

/-- States of the two tables reachable from an empty file through the
two cited inserts, the runtime handing each insert a representable
current date. -/
inductive LogReachable : LogDB → Prop where
  | init : LogReachable ⟨[], []⟩
  | stepWaste (db : LogDB) (item : String) (q : Int) (qt : String)
      (now : DateTime) (img : Option (List Nat)) :
      LogReachable db → now.valid →
      LogReachable (logWaste db item q qt now img)
  | stepChallenge (db : LogDB) (ch : String) (today endDate : Date) :
      LogReachable db → today.valid → endDate = addDays today 7 →
      endDate.valid →
      LogReachable (create_new_challenge db ch today)

/- ------------------------------------------------------------------ -/
/- Achievement lookup, three implementations (C9).                     -/
/- ------------------------------------------------------------------ -/

/-- The threshold table of ecoeats.py lines 155 to 161 and
backup/database.py lines 59 to 65. -/
def achievements : List (Int × String) :=
  [(30, "🏆 Eco Warrior"),
   (20, "🌟 Sustainability Star"),
   (10, "🌱 Green Enthusiast"),
   (5, "🍃 Eco Novice"),
   (0, "🌾 Beginner")]

/-- The for-loop of the list-based get_achievement: first pair whose
threshold the streak reaches; falling off the end returns the Python
value None. -/
def findTitle : List (Int × String) → Int → Option String
  | [], _ => none
  | (days, title) :: rest, streak =>
      if streak ≥ days then some title else findTitle rest streak

/-- Embedding of get_achievement from ecoeats.py lines 154 to 164
(list-based, implicit None on fall-through). -/
def get_achievement (streak : Int) : Option String :=
  findTitle achievements streak

end EcoEats

namespace EcoEatsDb

/-- Embedding of get_achievement from backup/database.py lines 57 to 69:
same loop, with an explicit default return after it. -/
def get_achievement (streak : Int) : String :=
  (EcoEats.findTitle EcoEats.achievements streak).getD "🌾 Beginner"

end EcoEatsDb

namespace SqliteSchema

/-- A database schema: each table paired with its column names in
order. -/
abbrev Schema := List (String × List String)

/-- Whether a table of the given name exists. -/
def hasTable (s : Schema) (name : String) : Bool :=
  s.any fun t => t.1 == name

/-- The column list PRAGMA table_info reports for a table, empty when
the table does not exist. -/
def tableCols (s : Schema) (name : String) : List String :=
  match s.find? (fun t => t.1 == name) with
  | some t => t.2
  | none => []

/-- Semantics of CREATE TABLE IF NOT EXISTS: append the table unless one
of that name exists. -/
def createTableIfNotExists (s : Schema) (name : String)
    (cols : List String) : Schema :=
  if hasTable s name then s else s ++ [(name, cols)]

/-- Run a sequence of CREATE TABLE IF NOT EXISTS statements. -/
def createAll (s : Schema) (ts : List (String × List String)) : Schema :=
  ts.foldl (fun acc t => createTableIfNotExists acc t.1 t.2) s

/-- Append a column to the named table. -/
def addColumn : Schema → String → String → Schema
  | [], _, _ => []
  | t :: ts, name, col =>
      if t.1 == name then (t.1, t.2 ++ [col]) :: ts
      else t :: addColumn ts name col

/-- Semantics of ALTER TABLE name ADD COLUMN col: SQLite raises an error
when the table is missing or the column already exists. -/
def alterAddColumn (s : Schema) (name col : String) :
    Except String Schema :=
  if hasTable s name = false then
    Except.error ("no such table: " ++ name)
  else if col ∈ tableCols s name then
    Except.error ("duplicate column name: " ++ col)
  else
    Except.ok (addColumn s name col)

/-- The add-column-if-absent pattern of the setup functions: the column
list that was fetched by PRAGMA is passed explicitly because app17.py
reuses one fetched list for two checks.  The returned log records the
ALTER statements actually executed. -/
def ensureColumn (s : Schema) (tbl col stmt : String)
    (columns : List String) : Except String (Schema × List String) :=
  if col ∈ columns then Except.ok (s, [])
  else
    match alterAddColumn s tbl col with
    | .error e => Except.error e
    | .ok s2 => Except.ok (s2, [stmt])

end SqliteSchema

namespace App17

open SqliteSchema

/-- The CREATE TABLE IF NOT EXISTS block of setup_database in app17.py
lines 39 to 52. -/
def baseTables : List (String × List String) :=
  [("food_waste", ["id", "item", "quantity", "date"]),
   ("meals", ["id", "meal", "nutrition", "date"]),
   ("goals", ["id", "type", "goal", "recommendations", "date", "completed"]),
   ("challenges", ["id", "challenge", "start_date", "end_date", "completed"]),
   ("community_posts", ["id", "post", "likes", "date"]),
   ("user_stats", ["id", "last_login", "streak"])]

/-- Embedding of setup_database from app17.py lines 38 to 68: create the
tables if missing, then add image to food_waste when PRAGMA shows it
absent, and add image and quantity to meals, both checked against the
single column list fetched for meals. -/
def setup_database (s0 : Schema) : Except String (Schema × List String) :=
  let s1 := createAll s0 baseTables
  let columns := tableCols s1 "food_waste"
  match ensureColumn s1 "food_waste" "image"
      "ALTER TABLE food_waste ADD COLUMN image BLOB" columns with
  | .error e => Except.error e
  | .ok (s2, log2) =>
    let columns2 := tableCols s2 "meals"
    match ensureColumn s2 "meals" "image"
        "ALTER TABLE meals ADD COLUMN image BLOB" columns2 with
    | .error e => Except.error e
    | .ok (s3, log3) =>
      match ensureColumn s3 "meals" "quantity"
          "ALTER TABLE meals ADD COLUMN quantity INTEGER" columns2 with
      | .error e => Except.error e
      | .ok (s4, log4) => Except.ok (s4, log2 ++ log3 ++ log4)

/-- The schema a first run of the app17.py setup produces from an empty
database file. -/
def migratedSchema : Schema :=
  [("food_waste", ["id", "item", "quantity", "date", "image"]),
   ("meals", ["id", "meal", "nutrition", "date", "image", "quantity"]),
   ("goals", ["id", "type", "goal", "recommendations", "date", "completed"]),
   ("challenges", ["id", "challenge", "start_date", "end_date", "completed"]),
   ("community_posts", ["id", "post", "likes", "date"]),
   ("user_stats", ["id", "last_login", "streak"])]

/-- The ALTER statements that first run executes. -/
def alterLog : List String :=
  ["ALTER TABLE food_waste ADD COLUMN image BLOB",
   "ALTER TABLE meals ADD COLUMN image BLOB",
   "ALTER TABLE meals ADD COLUMN quantity INTEGER"]

end App17

namespace App21

open SqliteSchema

/-- The CREATE TABLE IF NOT EXISTS block of setup_database in
backup/app21.py lines 45 to 58. -/
def baseTables : List (String × List String) :=
  [("food_waste", ["id", "item", "quantity", "date", "image"]),
   ("meals", ["id", "meal", "nutrition", "date", "image", "quantity"]),
   ("goals", ["id", "type", "goal", "recommendations", "date", "completed",
              "potential_savings"]),
   ("challenges", ["id", "challenge", "start_date", "end_date", "completed"]),
   ("community_posts", ["id", "post", "likes", "date"]),
   ("user_stats", ["id", "last_login", "streak"])]

/-- Embedding of setup_database from backup/app21.py lines 44 to 67:
create the tables if missing, then add quantity_type to food_waste when
PRAGMA shows it absent. -/
def setup_database (s0 : Schema) : Except String (Schema × List String) :=
  let s1 := createAll s0 baseTables
  let columns := tableCols s1 "food_waste"
  match ensureColumn s1 "food_waste" "quantity_type"
      "ALTER TABLE food_waste ADD COLUMN quantity_type TEXT" columns with
  | .error e => Except.error e
  | .ok (s2, log2) => Except.ok (s2, log2)

/-- The schema a first run of the backup/app21.py setup produces from an
empty database file. -/
def migratedSchema : Schema :=
  [("food_waste", ["id", "item", "quantity", "date", "image",
                   "quantity_type"]),
   ("meals", ["id", "meal", "nutrition", "date", "image", "quantity"]),
   ("goals", ["id", "type", "goal", "recommendations", "date", "completed",
              "potential_savings"]),
   ("challenges", ["id", "challenge", "start_date", "end_date", "completed"]),
   ("community_posts", ["id", "post", "likes", "date"]),
   ("user_stats", ["id", "last_login", "streak"])]

/-- The ALTER statements that first run executes. -/
def alterLog : List String :=
  ["ALTER TABLE food_waste ADD COLUMN quantity_type TEXT"]

end App21

namespace App17

/-- Session state touched by the login function of app17.py: the
logged_in flag. -/
structure Session where
  logged_in : Bool
deriving DecidableEq, Repr

/-- Embedding of login from app17.py lines 111 to 120: a hardcoded
credential check.  The app17.py schema has no users table at all, so no
stored credential can be consulted; on failure only an error message is
shown and the session is untouched. -/
def login (sess : Session) (username password : String) :
    Session × EcoEats.UIMsg :=
  if username = "kanwal" ∧ password = "swapnil" then
    ({ logged_in := true }, .success "Logged in successfully!")
  else
    (sess, .error "Incorrect username or password")

end App17

namespace App10

/-- Row of the users table of app10.py lines 22 to 23, with username
declared UNIQUE. -/
structure UserRow where
  id : Int
  username : String
  password : String
deriving DecidableEq, Repr

/-- Session state touched by login_page of app10.py: the user id and the
username, absent before login. -/
structure Session where
  user_id : Option Int
  username : Option String
deriving DecidableEq, Repr

/-- Embedding of login_page from app10.py lines 287 to 306: a hardcoded
credential check that stores the fixed user id 1 on success.  The users
table is passed in to state that the check never consults it. -/
def login_page (users : List UserRow) (sess : Session)
    (username password : String) : Session × EcoEats.UIMsg :=
  if username = "kanwal" ∧ password = "swapnil87" then
    ({ user_id := some 1, username := some username },
     .success "Logged in successfully!")
  else
    (sess, .error "Invalid username or password")

/-- Embedding of create_user from app10.py lines 45 to 48 together with
the UNIQUE constraint on users.username: inserting an existing username
makes SQLite reject the statement with an IntegrityError, and nothing is
written; otherwise a row with the next rowid and the hash of the
password is appended.  The salted hash function is an external
parameter. -/
def create_user (hashpw : String → String) (rows : List UserRow)
    (username password : String) : Except String (List UserRow) :=
  if rows.any (fun r => r.username == username) then
    Except.error "UNIQUE constraint failed: users.username"
  else
    Except.ok (rows ++
      [⟨EcoEats.freshId (rows.map fun r => r.id), username, hashpw password⟩])

/-- States of the users table reachable by the program: it starts empty
and is only ever written by successful create_user calls. -/
inductive UsersReachable : List UserRow → Prop where
  | init : UsersReachable []
  | create (rows rows2 : List UserRow) (hashpw : String → String)
      (username password : String) :
      UsersReachable rows →
      create_user hashpw rows username password = .ok rows2 →
      UsersReachable rows2

/-- Row of the food_waste table of app10.py line 24. -/
structure WasteRow where
  id : Int
  user_id : Int
  item : String
  quantity : Int
  date : String
deriving DecidableEq, Repr

/-- Row of the meals table of app10.py line 26. -/
structure MealRow where
  id : Int
  user_id : Int
  meal : String
  nutrition : String
  date : String
deriving DecidableEq, Repr

/-- Row of the goals table of app10.py line 28. -/
structure GoalRow where
  id : Int
  user_id : Int
  type : String
  goal : String
  recommendations : String
  date : String
  completed : Bool
deriving DecidableEq, Repr

/-- Row of the challenges table of app10.py line 30. -/
structure ChallengeRow where
  id : Int
  user_id : Int
  challenge : String
  start_date : String
  end_date : String
  completed : Bool
deriving DecidableEq, Repr

/-- Row of the community_posts table of app10.py line 32. -/
structure PostRow where
  id : Int
  user_id : Int
  post : String
  likes : Int
  date : String
deriving DecidableEq, Repr

/-- Row of the user_stats table of app10.py line 34, with user_id
declared UNIQUE. -/
structure StatRow where
  id : Int
  user_id : Int
  last_login : String
  streak : Int
deriving DecidableEq, Repr

/-- The app10.py database state. -/
structure DB where
  users : List UserRow
  food_waste : List WasteRow
  meals : List MealRow
  goals : List GoalRow
  challenges : List ChallengeRow
  community_posts : List PostRow
  user_stats : List StatRow

/-- The empty database a fresh file starts from. -/
def emptyDB : DB :=
  ⟨[], [], [], [], [], [], []⟩

/-- Every statement of app10.py that writes to the database. -/
inductive Op where
  | logWaste (user_id : Int) (item : String) (quantity : Int) (now : String)
  | logMeal (user_id : Int) (meal nutrition now : String)
  | setGoal (user_id : Int) (type goal recommendations now : String)
  | addChallenge (user_id : Int) (challenge start_date end_date : String)
  | submitPost (user_id : Int) (post now : String)
  | createUser (hashpw : String → String) (username password : String)
  | completeGoal (id : Int)
  | completeChallenge (id : Int)
  | likePost (id : Int)
  | writeStats (user_id : Int) (today : String) (streak : Int)

/-- One write of app10.py against the database.  Inserts never supply
the primary key and append a row with the next rowid; the two UPDATE
completed statements set the flag of the matching row (app10.py lines
220 and 252, ecoeats.py line 561); the like button increments the likes
of the matching row (app10.py line 279); the INSERT OR REPLACE of
update_streak (app10.py line 89) replaces the row sharing the UNIQUE
user_id with a freshly numbered row; a duplicate-username insert is
rejected and writes nothing. -/
def step : Op → DB → DB
  | .logWaste uid item q now, db =>
      { db with food_waste := db.food_waste ++
          [⟨EcoEats.freshId (db.food_waste.map fun r => r.id),
            uid, item, q, now⟩] }
  | .logMeal uid meal nutrition now, db =>
      { db with meals := db.meals ++
          [⟨EcoEats.freshId (db.meals.map fun r => r.id),
            uid, meal, nutrition, now⟩] }
  | .setGoal uid ty goal recs now, db =>
      { db with goals := db.goals ++
          [⟨EcoEats.freshId (db.goals.map fun r => r.id),
            uid, ty, goal, recs, now, false⟩] }
  | .addChallenge uid ch sd ed, db =>
      { db with challenges := db.challenges ++
          [⟨EcoEats.freshId (db.challenges.map fun r => r.id),
            uid, ch, sd, ed, false⟩] }
  | .submitPost uid post now, db =>
      { db with community_posts := db.community_posts ++
          [⟨EcoEats.freshId (db.community_posts.map fun r => r.id),
            uid, post, 0, now⟩] }
  | .createUser hashpw u p, db =>
      match create_user hashpw db.users u p with
      | .ok rows => { db with users := rows }
      | .error _ => db
  | .completeGoal i, db =>
      { db with goals := db.goals.map fun g =>
          if g.id = i then { g with completed := true } else g }
  | .completeChallenge i, db =>
      { db with challenges := db.challenges.map fun c =>
          if c.id = i then { c with completed := true } else c }
  | .likePost i, db =>
      { db with community_posts := db.community_posts.map fun p =>
          if p.id = i then { p with likes := p.likes + 1 } else p }
  | .writeStats uid today streak, db =>
      let remaining := db.user_stats.filter fun r => r.user_id ≠ uid
      { db with user_stats := remaining ++
          [⟨EcoEats.freshId (remaining.map fun r => r.id),
            uid, today, streak⟩] }

/-- Database states reachable from a fresh file by the writes of the
program. -/
inductive Reachable : DB → Prop where
  | init : Reachable emptyDB
  | step (db : DB) (op : Op) : Reachable db → Reachable (step op db)

/-- Equality of goal rows on every column except completed. -/
def goalFrameOK (g g2 : GoalRow) : Prop :=
  g2.id = g.id ∧ g2.user_id = g.user_id ∧ g2.type = g.type ∧
  g2.goal = g.goal ∧ g2.recommendations = g.recommendations ∧
  g2.date = g.date

/-- Equality of challenge rows on every column except completed. -/
def challengeFrameOK (c c2 : ChallengeRow) : Prop :=
  c2.id = c.id ∧ c2.user_id = c.user_id ∧ c2.challenge = c.challenge ∧
  c2.start_date = c.start_date ∧ c2.end_date = c.end_date

/-- Every row of the first list survives into the second unchanged. -/
def RowsIntact {α : Type} (before after : List α) : Prop :=
  ∀ r ∈ before, r ∈ after

/-- Formalization of claim C4 as stated: across every operation, rows of
tables without a completed column survive bit-for-bit, and rows of goals
and challenges survive with every column except completed unchanged, so
that the only mutation ever applied to an existing row is its completed
flag. -/
def OnlyCompletedMutated : Prop :=
  ∀ (op : Op) (db : DB),
    RowsIntact db.users (step op db).users ∧
    RowsIntact db.food_waste (step op db).food_waste ∧
    RowsIntact db.meals (step op db).meals ∧
    RowsIntact db.community_posts (step op db).community_posts ∧
    RowsIntact db.user_stats (step op db).user_stats ∧
    (∀ g ∈ db.goals, ∃ g2 ∈ (step op db).goals, goalFrameOK g g2) ∧
    (∀ c ∈ db.challenges, ∃ c2 ∈ (step op db).challenges,
      challengeFrameOK c c2)

/-- Equality of post rows on every column except likes, which may stay
or grow by exactly one. -/
def postFrameOK (p p2 : PostRow) : Prop :=
  p2.id = p.id ∧ p2.user_id = p.user_id ∧ p2.post = p.post ∧
  p2.date = p.date ∧ (p2.likes = p.likes ∨ p2.likes = p.likes + 1)

/-- Embedding of get_achievement from app10.py lines 94 to 104: an
if-chain whose title literals are the MacRoman-mojibake forms stored in
that source file. -/
def get_achievement (streak : Int) : String :=
  if streak ≥ 30 then "üèÜ Eco Warrior"
  else if streak ≥ 20 then "üåü Sustainability Star"
  else if streak ≥ 10 then "üå± Green Enthusiast"
  else if streak ≥ 5 then "üçÉ Eco Novice"
  else "üåæ Beginner"

end App10

namespace EcoEats

/-- Tier selected by the threshold chain of the claim: 0 for a streak of
at least 30 down to 4 below 5. -/
def claimTier (streak : Int) : Nat :=
  if 30 ≤ streak then 0
  else if 20 ≤ streak then 1
  else if 10 ≤ streak then 2
  else if 5 ≤ streak then 3
  else 4

/-- Titles of the list-based implementations by tier. -/
def emojiTitle : Nat → String
  | 0 => "🏆 Eco Warrior"
  | 1 => "🌟 Sustainability Star"
  | 2 => "🌱 Green Enthusiast"
  | 3 => "🍃 Eco Novice"
  | _ => "🌾 Beginner"

/-- Titles of the app10.py if-chain by tier: the same words behind a
MacRoman-mojibake rendering of each leading emoji. -/
def mojibakeTitle : Nat → String
  | 0 => "üèÜ Eco Warrior"
  | 1 => "üåü Sustainability Star"
  | 2 => "üå± Green Enthusiast"
  | 3 => "üçÉ Eco Novice"
  | _ => "üåæ Beginner"

/- ------------------------------------------------------------------ -/
/- update_streak (C8).                                                 -/
/- ------------------------------------------------------------------ -/

/-- Embedding of update_streak from ecoeats.py lines 133 to 152 and
backup/database.py lines 32 to 55.  Dates are day numbers so that date
subtraction yields the timedelta day count; the stored user_stats row
with id 1 is (last_login, streak) when present.  The result is the state
after the call, the returned streak, and whether an INSERT OR REPLACE
with commit was executed. -/
def update_streak (today : Int) (stored : Option (Int × Int)) :
    Option (Int × Int) × Int × Bool :=
  match stored with
  | some (last_login, streak) =>
      if today - last_login = 1 then
        (some (today, streak + 1), streak + 1, true)
      else if today - last_login > 1 then
        (some (today, 1), 1, true)
      else
        (stored, streak, false)
  | none => (some (today, 1), 1, true)

end EcoEats

/- ==================== THEOREMS ==================== -/

namespace EcoEats

/-- Claim C1: for every prompt, every image and every outcome of the
single external call, each AI wrapper returns the stripped response
content with no error shown, or on any exception shows one error message
and returns its fixed canned fallback; the result is a plain value (no
exception escapes) and depends only on the one request each wrapper
issues, so no second call is ever consulted. -/
theorem claim_C1_ai_wrappers (llm llm2 : ChatRequest → LLMOutcome)
    (prompt : String) (max_tokens : Nat) (image : List Nat)
    (c e : String) :
    (llm (genRequest prompt max_tokens) = .ok c →
      generate_ai_response llm prompt max_tokens = ⟨[], pyStrip c⟩) ∧
    (llm (genRequest prompt max_tokens) = .exn e →
      generate_ai_response llm prompt max_tokens =
        ⟨["Error in AI response generation: " ++ e],
         "I\x27m sorry, I couldn\x27t generate a response at this time."⟩) ∧
    (llm (imgRequest "task" image) = .ok c →
      analyze_image llm image "task" = ⟨[], pyStrip c⟩) ∧
    (llm (imgRequest "task" image) = .exn e →
      analyze_image llm image "task" =
        ⟨["Error in image analysis: " ++ e],
         "I\x27m sorry, I couldn\x27t analyze the image at this time."⟩) ∧
    (llm (groceryRequest image) = .ok c →
      analyze_grocery_list llm image = ⟨[], pyStrip c⟩) ∧
    (llm (groceryRequest image) = .exn e →
      analyze_grocery_list llm image =
        ⟨["Error in grocery list analysis: " ++ e],
         "I\x27m sorry, I couldn\x27t analyze the grocery list at this time."⟩) ∧
    (llm (genRequest prompt max_tokens) = llm2 (genRequest prompt max_tokens) →
      generate_ai_response llm prompt max_tokens =
        generate_ai_response llm2 prompt max_tokens) := by
  refine ⟨?_, ?_, ?_, ?_, ?_, ?_, ?_⟩ <;>
    intro h <;>
    simp [generate_ai_response, analyze_image, analyze_grocery_list, h]

/-- Witness for claim C1 at a concrete successful call and a concrete
failing call. -/
theorem claim_C1_ai_wrappers_witness :
    generate_ai_response (fun _ => .ok "  tip  ") "p" 150 = ⟨[], "tip"⟩ ∧
    analyze_grocery_list (fun _ => .exn "boom") [1, 2] =
      ⟨["Error in grocery list analysis: boom"],
       "I\x27m sorry, I couldn\x27t analyze the grocery list at this time."⟩ := by
  constructor
  · exact (claim_C1_ai_wrappers (fun _ => .ok "  tip  ") (fun _ => .ok "")
      "p" 150 [] "  tip  " "").1 rfl
  · exact (claim_C1_ai_wrappers (fun _ => .exn "boom") (fun _ => .ok "")
      "p" 150 [1, 2] "" "boom").2.2.2.2.2.1 rfl

/-- Claim C8: update_streak stores (today, streak + 1) when exactly one
day passed since the stored login, resets to 1 when more than one day
passed, returns the stored streak with no write at all when the
difference is not positive, and initializes to 1 when no row exists. -/
theorem claim_C8_update_streak (today : Int) (stored : Option (Int × Int)) :
    (stored = none →
      update_streak today stored = (some (today, 1), 1, true)) ∧
    (∀ l s, stored = some (l, s) →
      (today - l = 1 →
        update_streak today stored = (some (today, s + 1), s + 1, true)) ∧
      (1 < today - l →
        update_streak today stored = (some (today, 1), 1, true)) ∧
      (today - l ≤ 0 →
        update_streak today stored = (stored, s, false))) := by
  constructor
  · intro h; subst h; rfl
  · rintro l s rfl
    refine ⟨?_, ?_, ?_⟩ <;> intro h <;>
      simp only [update_streak] <;> split_ifs <;>
      first | rfl | (exfalso; omega)

/-- Witness for claim C8: all four branches at concrete day numbers. -/
theorem claim_C8_update_streak_witness :
    update_streak 10 none = (some (10, 1), 1, true) ∧
    update_streak 10 (some (9, 3)) = (some (10, 4), 4, true) ∧
    update_streak 10 (some (5, 3)) = (some (10, 1), 1, true) ∧
    update_streak 10 (some (10, 3)) = (some (10, 3), 3, false) := by
  refine ⟨(claim_C8_update_streak 10 none).1 rfl,
          (((claim_C8_update_streak 10 (some (9, 3))).2 9 3 rfl).1 (by decide)),
          (((claim_C8_update_streak 10 (some (5, 3))).2 5 3 rfl).2.1 (by decide)),
          (((claim_C8_update_streak 10 (some (10, 3))).2 10 3 rfl).2.2 (by decide))⟩

/-- Counterexample to claim C9 as stated: at a streak of 30 the
list-based implementation returns the emoji title while the if-chain of
app10.py returns a MacRoman-mojibake string, so the two implementations
do not agree and the if-chain does not return the claimed title. -/
theorem claim_C9_counterexample :
    get_achievement 30 = some "🏆 Eco Warrior" ∧
    App10.get_achievement 30 ≠ "🏆 Eco Warrior" := by
  constructor
  · rfl
  · decide

/-- Claim C9 amended: on every nonnegative streak all three
implementations select the same threshold tier; the list-based versions
return exactly the claimed emoji titles (the backup one through its
explicit default), while the if-chain of app10.py returns the same title
behind a MacRoman-mojibake emoji prefix, hence differs from them as a
string. -/
theorem claim_C9_achievement_tiers (streak : Int) (h : 0 ≤ streak) :
    get_achievement streak = some (emojiTitle (claimTier streak)) ∧
    EcoEatsDb.get_achievement streak = emojiTitle (claimTier streak) ∧
    App10.get_achievement streak = mojibakeTitle (claimTier streak) := by
  unfold claimTier
  unfold get_achievement EcoEatsDb.get_achievement App10.get_achievement
  simp only [findTitle, achievements]
  split_ifs <;> simp_all [emojiTitle, mojibakeTitle, findTitle]

/-- Witness for claim C9 amended at streak 12. -/
theorem claim_C9_achievement_tiers_witness :
    get_achievement 12 = some (emojiTitle (claimTier 12)) ∧
    EcoEatsDb.get_achievement 12 = emojiTitle (claimTier 12) ∧
    App10.get_achievement 12 = mojibakeTitle (claimTier 12) :=
  claim_C9_achievement_tiers 12 (by decide)

/-- The SUM aggregate over the quantity column of a row list: NULL on no
rows, otherwise the fold of addition. -/
theorem sqlSum_map_quantity (l : List FoodWasteRow) :
    sqlSum (l.map fun r => r.quantity) =
      if l.length = 0 then none
      else some (l.foldr (fun r acc => r.quantity + acc) 0) := by
  cases l with
  | nil => rfl
  | cons r rows => simp [sqlSum, List.sum_eq_foldr, List.foldr_map]

/-- Claim C2: for every database state the home page metrics are exactly
the COUNT of food_waste rows, the COUNT of meal rows and the COUNT of
goal rows whose completed flag is set, and the weekly report waste
statistics are the COUNT and the SUM of quantity over the food_waste
rows at or after the seven-day cutoff, the SUM being NULL exactly when
no row qualifies. -/
theorem claim_C2_aggregates (db : DB) (cutoff : String) :
    (home db).items_logged = Int.ofNat db.food_waste.length ∧
    (home db).meals_tracked = Int.ofNat db.meals.length ∧
    (home db).goals_completed =
      Int.ofNat (db.goals.countP fun g => g.completed) ∧
    (weekly_report_waste db cutoff).1 =
      Int.ofNat (db.food_waste.countP fun r => dateGE r.date cutoff) ∧
    (weekly_report_waste db cutoff).2 =
      (if (db.food_waste.countP fun r => dateGE r.date cutoff) = 0 then none
       else some ((db.food_waste.filter fun r => dateGE r.date cutoff).foldr
         (fun r acc => r.quantity + acc) 0)) := by
  refine ⟨rfl, rfl, ?_, ?_, ?_⟩
  · simp [home, sqlCountStar, List.countP_eq_length_filter]
  · simp [weekly_report_waste, sqlCountStar, List.countP_eq_length_filter]
  · simp only [weekly_report_waste]
    rw [sqlSum_map_quantity]
    simp [List.countP_eq_length_filter]

/-- Claim C3: both login implementations succeed exactly on the constant
credential pair written in their source file; any other pair yields an
error message and an unchanged session, and the app10.py check gives the
same result for every content of the users table, while the app17.py
schema has no users table to read at all. -/
theorem claim_C3_hardcoded_login (users users2 : List App10.UserRow)
    (sess17 : App17.Session) (sess10 : App10.Session) (u p : String) :
    ((App17.login sess17 u p).2.isSuccess = true ↔
      (u = "kanwal" ∧ p = "swapnil")) ∧
    (u = "kanwal" ∧ p = "swapnil" →
      App17.login sess17 u p =
        (⟨true⟩, .success "Logged in successfully!")) ∧
    (¬(u = "kanwal" ∧ p = "swapnil") →
      App17.login sess17 u p =
        (sess17, .error "Incorrect username or password")) ∧
    ((App10.login_page users sess10 u p).2.isSuccess = true ↔
      (u = "kanwal" ∧ p = "swapnil87")) ∧
    (u = "kanwal" ∧ p = "swapnil87" →
      App10.login_page users sess10 u p =
        (⟨some 1, some u⟩, .success "Logged in successfully!")) ∧
    (¬(u = "kanwal" ∧ p = "swapnil87") →
      App10.login_page users sess10 u p =
        (sess10, .error "Invalid username or password")) ∧
    App10.login_page users sess10 u p = App10.login_page users2 sess10 u p := by
  refine ⟨?_, ?_, ?_, ?_, ?_, ?_, rfl⟩ <;>
    simp only [App17.login, App10.login_page] <;>
    split_ifs <;> simp_all [UIMsg.isSuccess]

/-- Witness for claim C3: the constant pairs succeed and a wrong pair is
rejected with the session untouched. -/
theorem claim_C3_hardcoded_login_witness :
    App17.login ⟨false⟩ "kanwal" "swapnil" =
      (⟨true⟩, .success "Logged in successfully!") ∧
    App10.login_page [] ⟨none, none⟩ "kanwal" "swapnil87" =
      (⟨some 1, some "kanwal"⟩, .success "Logged in successfully!") ∧
    App10.login_page [] ⟨none, none⟩ "kanwal" "wrong" =
      (⟨none, none⟩, .error "Invalid username or password") := by
  refine ⟨?_, ?_, ?_⟩
  · exact (claim_C3_hardcoded_login [] [] ⟨false⟩ ⟨none, none⟩ "kanwal"
      "swapnil").2.1 ⟨rfl, rfl⟩
  · exact (claim_C3_hardcoded_login [] [] ⟨false⟩ ⟨none, none⟩ "kanwal"
      "swapnil87").2.2.2.2.1 ⟨rfl, rfl⟩
  · exact (claim_C3_hardcoded_login [] [] ⟨false⟩ ⟨none, none⟩ "kanwal"
      "wrong").2.2.2.2.2.1 (by simp)

end EcoEats

namespace SqliteSchema

/-- Adding a column never changes which tables exist. -/
theorem hasTable_addColumn (s : Schema) (n col m : String) :
    hasTable (addColumn s n col) m = hasTable s m := by
  induction s with
  | nil => rfl
  | cons t ts ih =>
      simp only [addColumn]
      split_ifs with h
      · rfl
      · simp only [hasTable, List.any_cons] at ih ⊢
        rw [ih]

/-- Column lookup at a cons cell whose head matches. -/
theorem tableCols_cons_pos (t : String × List String) (ts : Schema)
    (n : String) (h : (t.1 == n) = true) :
    tableCols (t :: ts) n = t.2 := by
  unfold tableCols
  simp [List.find?, h]

/-- Column lookup at a cons cell whose head does not match. -/
theorem tableCols_cons_neg (t : String × List String) (ts : Schema)
    (n : String) (h : (t.1 == n) = false) :
    tableCols (t :: ts) n = tableCols ts n := by
  unfold tableCols
  simp [List.find?, h]

/-- Adding a column to an existing table appends it to the column list
of that table. -/
theorem tableCols_addColumn_self (s : Schema) (n col : String)
    (h : hasTable s n = true) :
    tableCols (addColumn s n col) n = tableCols s n ++ [col] := by
  induction s with
  | nil => simp [hasTable] at h
  | cons t ts ih =>
      simp only [addColumn]
      split_ifs with ht
      · rw [tableCols_cons_pos (t.1, t.2 ++ [col]) ts n ht,
            tableCols_cons_pos t ts n ht]
      · have hb : (t.1 == n) = false := by simpa using ht
        have h2 : hasTable ts n = true := by
          simpa [hasTable, List.any_cons, hb] using h
        rw [tableCols_cons_neg t (addColumn ts n col) n hb,
            tableCols_cons_neg t ts n hb]
        exact ih h2

/-- Adding a column to one table leaves the column lists of all other
tables unchanged. -/
theorem tableCols_addColumn_ne (s : Schema) (n col m : String)
    (hm : m ≠ n) :
    tableCols (addColumn s n col) m = tableCols s m := by
  induction s with
  | nil => rfl
  | cons t ts ih =>
      simp only [addColumn]
      split_ifs with ht
      · have h1 : (t.1 == m) = false := by
          have ht2 : t.1 = n := by simpa using ht
          rw [ht2, beq_eq_false_iff_ne]
          exact fun hc => hm hc.symm
        rw [tableCols_cons_neg (t.1, t.2 ++ [col]) ts m h1,
            tableCols_cons_neg t ts m h1]
      · by_cases h2 : (t.1 == m) = true
        · rw [tableCols_cons_pos t (addColumn ts n col) m h2,
              tableCols_cons_pos t ts m h2]
        · have h2f : (t.1 == m) = false := by simpa using h2
          rw [tableCols_cons_neg t (addColumn ts n col) m h2f,
              tableCols_cons_neg t ts m h2f]
          exact ih

/-- The created table exists afterwards. -/
theorem hasTable_createTable_self (s : Schema) (n : String)
    (c : List String) :
    hasTable (createTableIfNotExists s n c) n = true := by
  unfold createTableIfNotExists
  split_ifs with h
  · exact h
  · simp [hasTable, List.any_append]

/-- Creating a table preserves all existing tables. -/
theorem hasTable_createTable_mono (s : Schema) (n : String)
    (c : List String) (m : String) (h : hasTable s m = true) :
    hasTable (createTableIfNotExists s n c) m = true := by
  unfold createTableIfNotExists
  split_ifs
  · exact h
  · simp only [hasTable, List.any_append, Bool.or_eq_true]
    left
    exact h

/-- CREATE TABLE IF NOT EXISTS is a no-op on an existing table. -/
theorem createTable_of_hasTable (s : Schema) (n : String)
    (c : List String) (h : hasTable s n = true) :
    createTableIfNotExists s n c = s := by
  unfold createTableIfNotExists
  rw [if_pos h]

/-- A block of CREATE TABLE IF NOT EXISTS statements is a no-op when
every listed table exists. -/
theorem createAll_eq_of_all (ts : List (String × List String))
    (s : Schema) (h : ∀ t ∈ ts, hasTable s t.1 = true) :
    createAll s ts = s := by
  induction ts generalizing s with
  | nil => rfl
  | cons t ts ih =>
      simp only [createAll, List.foldl_cons]
      rw [createTable_of_hasTable s t.1 t.2 (h t (by simp))]
      exact ih s fun t2 ht2 => h t2 (by simp [ht2])

/-- Creating tables preserves all existing tables. -/
theorem createAll_mono (ts : List (String × List String)) (s : Schema)
    (m : String) (h : hasTable s m = true) :
    hasTable (createAll s ts) m = true := by
  induction ts generalizing s with
  | nil => exact h
  | cons t ts ih =>
      simp only [createAll, List.foldl_cons]
      exact ih _ (hasTable_createTable_mono s t.1 t.2 m h)

/-- After the block runs, every listed table exists. -/
theorem createAll_hasTable_mem (ts : List (String × List String))
    (s : Schema) (n : String) (h : n ∈ ts.map Prod.fst) :
    hasTable (createAll s ts) n = true := by
  induction ts generalizing s with
  | nil => simp at h
  | cons t ts ih =>
      simp only [createAll, List.foldl_cons]
      rw [List.map_cons] at h
      rcases List.mem_cons.mp h with rfl | hmem
      · exact createAll_mono ts _ _ (hasTable_createTable_self s _ t.2)
      · exact ih _ hmem

/-- Success characterization of ALTER TABLE ADD COLUMN. -/
theorem alterAddColumn_ok_iff (s : Schema) (n col : String)
    (s2 : Schema) :
    alterAddColumn s n col = .ok s2 ↔
      hasTable s n = true ∧ col ∉ tableCols s n ∧
        s2 = addColumn s n col := by
  unfold alterAddColumn
  split_ifs with h1 h2
  · simp [h1]
  · simp [h2]
  · constructor
    · intro h
      cases h
      exact ⟨by simpa using h1, h2, rfl⟩
    · rintro ⟨_, _, rfl⟩
      rfl

/-- Case analysis of the add-column-if-absent pattern on success. -/
theorem ensureColumn_ok_elim (s s2 : Schema) (tbl col stmt : String)
    (columns log : List String)
    (h : ensureColumn s tbl col stmt columns = .ok (s2, log)) :
    (col ∈ columns ∧ s2 = s ∧ log = []) ∨
    (col ∉ columns ∧ hasTable s tbl = true ∧ col ∉ tableCols s tbl ∧
      s2 = addColumn s tbl col ∧ log = [stmt]) := by
  unfold ensureColumn at h
  split_ifs at h with hc
  · simp only [Except.ok.injEq, Prod.mk.injEq] at h
    exact Or.inl ⟨hc, h.1.symm, h.2.symm⟩
  · cases halter : alterAddColumn s tbl col with
    | error e => rw [halter] at h; cases h
    | ok sNew =>
        rw [halter] at h
        simp only [Except.ok.injEq, Prod.mk.injEq] at h
        obtain ⟨h4, h5⟩ := h
        obtain ⟨hhas, hmem, hEq⟩ :=
          (alterAddColumn_ok_iff s tbl col sNew).mp halter
        refine Or.inr ⟨hc, hhas, hmem, ?_, h5.symm⟩
        rw [← h4]
        exact hEq

/-- The pattern succeeds without any ALTER when the column is already in
the fetched list. -/
theorem ensureColumn_noop (s : Schema) (tbl col stmt : String)
    (columns : List String) (hc : col ∈ columns) :
    ensureColumn s tbl col stmt columns = .ok (s, []) := by
  unfold ensureColumn
  rw [if_pos hc]

/-- The pattern never changes which tables exist. -/
theorem ensureColumn_hasTable (s s2 : Schema) (tbl col stmt : String)
    (columns log : List String)
    (h : ensureColumn s tbl col stmt columns = .ok (s2, log))
    (m : String) : hasTable s2 m = hasTable s m := by
  rcases ensureColumn_ok_elim s s2 tbl col stmt columns log h with
    ⟨_, rfl, _⟩ | ⟨_, _, _, rfl, _⟩
  · rfl
  · exact hasTable_addColumn s tbl col m

/-- The pattern leaves the column lists of all other tables unchanged. -/
theorem ensureColumn_tableCols_ne (s s2 : Schema) (tbl col stmt : String)
    (columns log : List String)
    (h : ensureColumn s tbl col stmt columns = .ok (s2, log))
    (m : String) (hm : m ≠ tbl) : tableCols s2 m = tableCols s m := by
  rcases ensureColumn_ok_elim s s2 tbl col stmt columns log h with
    ⟨_, rfl, _⟩ | ⟨_, _, _, rfl, _⟩
  · rfl
  · exact tableCols_addColumn_ne s tbl col m hm

/-- The pattern only ever appends to the column list of its table. -/
theorem ensureColumn_tableCols_superset (s s2 : Schema)
    (tbl col stmt : String) (columns log : List String)
    (h : ensureColumn s tbl col stmt columns = .ok (s2, log))
    (x : String) (hx : x ∈ tableCols s tbl) : x ∈ tableCols s2 tbl := by
  rcases ensureColumn_ok_elim s s2 tbl col stmt columns log h with
    ⟨_, rfl, _⟩ | ⟨_, hhas, _, rfl, _⟩
  · exact hx
  · rw [tableCols_addColumn_self s tbl col hhas]
    exact List.mem_append_left _ hx

/-- After a successful run of the pattern against the freshly fetched
column list, the column is present. -/
theorem ensureColumn_col_mem (s s2 : Schema) (tbl col stmt : String)
    (log : List String)
    (h : ensureColumn s tbl col stmt (tableCols s tbl) = .ok (s2, log)) :
    col ∈ tableCols s2 tbl := by
  rcases ensureColumn_ok_elim s s2 tbl col stmt (tableCols s tbl) log h with
    ⟨hc, rfl, _⟩ | ⟨_, hhas, _, rfl, _⟩
  · exact hc
  · rw [tableCols_addColumn_self s tbl col hhas]
    exact List.mem_append_right _ (by simp)

end SqliteSchema

namespace App10

/-- A value bounded by the running maximum of a list it belongs to. -/
theorem le_foldr_max (x : Int) (l : List Int) (h : x ∈ l) :
    x ≤ l.foldr max 0 := by
  induction l with
  | nil => simp at h
  | cons a l ih =>
      rcases List.mem_cons.mp h with rfl | h2
      · exact le_max_left _ _
      · exact le_trans (ih h2) (le_max_right _ _)

/-- The next rowid is never one that is already taken. -/
theorem freshId_not_mem (ids : List Int) : EcoEats.freshId ids ∉ ids := by
  intro h
  have h2 := le_foldr_max _ _ h
  simp only [EcoEats.freshId] at h2
  omega

/-- Rows of the users table survive every operation. -/
theorem step_users_intact (op : Op) (db : DB) :
    RowsIntact db.users (step op db).users := by
  intro r hr
  cases op with
  | createUser hashpw u p =>
      simp only [step]
      cases hc : create_user hashpw db.users u p with
      | error e => exact hr
      | ok rows =>
          unfold create_user at hc
          split_ifs at hc
          all_goals cases hc
          all_goals exact List.mem_append_left _ hr
  | logWaste uid item q now => exact hr
  | logMeal uid m n now => exact hr
  | setGoal a b c d e => exact hr
  | addChallenge a b c d => exact hr
  | submitPost a b c => exact hr
  | completeGoal i => exact hr
  | completeChallenge i => exact hr
  | likePost i => exact hr
  | writeStats a b c => exact hr

/-- Rows of the food_waste table survive every operation. -/
theorem step_waste_intact (op : Op) (db : DB) :
    RowsIntact db.food_waste (step op db).food_waste := by
  intro r hr
  cases op with
  | logWaste uid item q now => exact List.mem_append_left _ hr
  | createUser hashpw u p =>
      simp only [step]
      cases hc : create_user hashpw db.users u p with
      | error e => exact hr
      | ok rows => exact hr
  | logMeal uid m n now => exact hr
  | setGoal a b c d e => exact hr
  | addChallenge a b c d => exact hr
  | submitPost a b c => exact hr
  | completeGoal i => exact hr
  | completeChallenge i => exact hr
  | likePost i => exact hr
  | writeStats a b c => exact hr

/-- Rows of the meals table survive every operation. -/
theorem step_meals_intact (op : Op) (db : DB) :
    RowsIntact db.meals (step op db).meals := by
  intro r hr
  cases op with
  | logMeal uid m n now => exact List.mem_append_left _ hr
  | createUser hashpw u p =>
      simp only [step]
      cases hc : create_user hashpw db.users u p with
      | error e => exact hr
      | ok rows => exact hr
  | logWaste uid item q now => exact hr
  | setGoal a b c d e => exact hr
  | addChallenge a b c d => exact hr
  | submitPost a b c => exact hr
  | completeGoal i => exact hr
  | completeChallenge i => exact hr
  | likePost i => exact hr
  | writeStats a b c => exact hr

/-- Rows of the goals table survive every operation with at most their
completed flag raised. -/
theorem step_goals_frame (op : Op) (db : DB) :
    ∀ g ∈ db.goals, ∃ g2 ∈ (step op db).goals, goalFrameOK g g2 ∧
      (g2.completed = g.completed ∨ g2.completed = true) := by
  intro g hg
  cases op with
  | setGoal a b c d e =>
      exact ⟨g, List.mem_append_left _ hg,
        ⟨rfl, rfl, rfl, rfl, rfl, rfl⟩, Or.inl rfl⟩
  | completeGoal i =>
      refine ⟨_, List.mem_map_of_mem _ hg, ?_⟩
      split_ifs with hid
      · exact ⟨⟨rfl, rfl, rfl, rfl, rfl, rfl⟩, Or.inr rfl⟩
      · exact ⟨⟨rfl, rfl, rfl, rfl, rfl, rfl⟩, Or.inl rfl⟩
  | createUser hashpw u p =>
      simp only [step]
      cases hc : create_user hashpw db.users u p with
      | error e =>
          exact ⟨g, hg, ⟨rfl, rfl, rfl, rfl, rfl, rfl⟩, Or.inl rfl⟩
      | ok rows =>
          exact ⟨g, hg, ⟨rfl, rfl, rfl, rfl, rfl, rfl⟩, Or.inl rfl⟩
  | logWaste uid item q now =>
      exact ⟨g, hg, ⟨rfl, rfl, rfl, rfl, rfl, rfl⟩, Or.inl rfl⟩
  | logMeal uid m n now =>
      exact ⟨g, hg, ⟨rfl, rfl, rfl, rfl, rfl, rfl⟩, Or.inl rfl⟩
  | addChallenge a b c d =>
      exact ⟨g, hg, ⟨rfl, rfl, rfl, rfl, rfl, rfl⟩, Or.inl rfl⟩
  | submitPost a b c =>
      exact ⟨g, hg, ⟨rfl, rfl, rfl, rfl, rfl, rfl⟩, Or.inl rfl⟩
  | completeChallenge i =>
      exact ⟨g, hg, ⟨rfl, rfl, rfl, rfl, rfl, rfl⟩, Or.inl rfl⟩
  | likePost i =>
      exact ⟨g, hg, ⟨rfl, rfl, rfl, rfl, rfl, rfl⟩, Or.inl rfl⟩
  | writeStats a b c =>
      exact ⟨g, hg, ⟨rfl, rfl, rfl, rfl, rfl, rfl⟩, Or.inl rfl⟩

/-- Rows of the challenges table survive every operation with at most
their completed flag raised. -/
theorem step_challenges_frame (op : Op) (db : DB) :
    ∀ c ∈ db.challenges, ∃ c2 ∈ (step op db).challenges,
      challengeFrameOK c c2 ∧
      (c2.completed = c.completed ∨ c2.completed = true) := by
  intro c hc0
  cases op with
  | addChallenge a b c3 d =>
      exact ⟨c, List.mem_append_left _ hc0,
        ⟨rfl, rfl, rfl, rfl, rfl⟩, Or.inl rfl⟩
  | completeChallenge i =>
      refine ⟨_, List.mem_map_of_mem _ hc0, ?_⟩
      split_ifs with hid
      · exact ⟨⟨rfl, rfl, rfl, rfl, rfl⟩, Or.inr rfl⟩
      · exact ⟨⟨rfl, rfl, rfl, rfl, rfl⟩, Or.inl rfl⟩
  | createUser hashpw u p =>
      simp only [step]
      cases hcu : create_user hashpw db.users u p with
      | error e => exact ⟨c, hc0, ⟨rfl, rfl, rfl, rfl, rfl⟩, Or.inl rfl⟩
      | ok rows => exact ⟨c, hc0, ⟨rfl, rfl, rfl, rfl, rfl⟩, Or.inl rfl⟩
  | logWaste uid item q now =>
      exact ⟨c, hc0, ⟨rfl, rfl, rfl, rfl, rfl⟩, Or.inl rfl⟩
  | logMeal uid m n now =>
      exact ⟨c, hc0, ⟨rfl, rfl, rfl, rfl, rfl⟩, Or.inl rfl⟩
  | setGoal a b c3 d e =>
      exact ⟨c, hc0, ⟨rfl, rfl, rfl, rfl, rfl⟩, Or.inl rfl⟩
  | submitPost a b c3 =>
      exact ⟨c, hc0, ⟨rfl, rfl, rfl, rfl, rfl⟩, Or.inl rfl⟩
  | completeGoal i =>
      exact ⟨c, hc0, ⟨rfl, rfl, rfl, rfl, rfl⟩, Or.inl rfl⟩
  | likePost i =>
      exact ⟨c, hc0, ⟨rfl, rfl, rfl, rfl, rfl⟩, Or.inl rfl⟩
  | writeStats a b c3 =>
      exact ⟨c, hc0, ⟨rfl, rfl, rfl, rfl, rfl⟩, Or.inl rfl⟩

/-- Rows of the community_posts table survive every operation with at
most their likes counter incremented by one. -/
theorem step_posts_frame (op : Op) (db : DB) :
    ∀ p ∈ db.community_posts, ∃ p2 ∈ (step op db).community_posts,
      postFrameOK p p2 := by
  intro p hp
  cases op with
  | submitPost a b c =>
      exact ⟨p, List.mem_append_left _ hp,
        rfl, rfl, rfl, rfl, Or.inl rfl⟩
  | likePost i =>
      refine ⟨_, List.mem_map_of_mem _ hp, ?_⟩
      split_ifs with hid
      · exact ⟨rfl, rfl, rfl, rfl, Or.inr rfl⟩
      · exact ⟨rfl, rfl, rfl, rfl, Or.inl rfl⟩
  | createUser hashpw u pw =>
      simp only [step]
      cases hc : create_user hashpw db.users u pw with
      | error e => exact ⟨p, hp, rfl, rfl, rfl, rfl, Or.inl rfl⟩
      | ok rows => exact ⟨p, hp, rfl, rfl, rfl, rfl, Or.inl rfl⟩
  | logWaste uid item q now => exact ⟨p, hp, rfl, rfl, rfl, rfl, Or.inl rfl⟩
  | logMeal uid m n now => exact ⟨p, hp, rfl, rfl, rfl, rfl, Or.inl rfl⟩
  | setGoal a b c d e => exact ⟨p, hp, rfl, rfl, rfl, rfl, Or.inl rfl⟩
  | addChallenge a b c d => exact ⟨p, hp, rfl, rfl, rfl, rfl, Or.inl rfl⟩
  | completeGoal i => exact ⟨p, hp, rfl, rfl, rfl, rfl, Or.inl rfl⟩
  | completeChallenge i => exact ⟨p, hp, rfl, rfl, rfl, rfl, Or.inl rfl⟩
  | writeStats a b c => exact ⟨p, hp, rfl, rfl, rfl, rfl, Or.inl rfl⟩

/-- Rows of the user_stats table survive every operation except the
INSERT OR REPLACE that targets their UNIQUE user_id. -/
theorem step_stats_frame (op : Op) (db : DB) :
    ∀ r ∈ db.user_stats, r ∈ (step op db).user_stats ∨
      ∃ uid today streak, op = .writeStats uid today streak ∧
        r.user_id = uid := by
  intro r hr
  cases op with
  | writeStats uid today streak =>
      by_cases hu : r.user_id = uid
      · exact Or.inr ⟨uid, today, streak, rfl, hu⟩
      · left
        simp only [step]
        refine List.mem_append_left _ ?_
        exact List.mem_filter.mpr ⟨hr, by simp [hu]⟩
  | createUser hashpw u p =>
      simp only [step]
      cases hc : create_user hashpw db.users u p with
      | error e => exact Or.inl hr
      | ok rows => exact Or.inl hr
  | logWaste uid item q now => exact Or.inl hr
  | logMeal uid m n now => exact Or.inl hr
  | setGoal a b c d e => exact Or.inl hr
  | addChallenge a b c d => exact Or.inl hr
  | submitPost a b c => exact Or.inl hr
  | completeGoal i => exact Or.inl hr
  | completeChallenge i => exact Or.inl hr
  | likePost i => exact Or.inl hr

/-- The like update leaves the id column of every post unchanged. -/
theorem ids_map_likeUpdate (posts : List PostRow) (i : Int) :
    ((posts.map fun q =>
        if q.id = i then { q with likes := q.likes + 1 } else q).map
      fun p => p.id) = posts.map fun p => p.id := by
  induction posts with
  | nil => rfl
  | cons p ps ih =>
      simp only [List.map_cons, ih]
      by_cases hid : p.id = i
      · simp [hid]
      · simp [hid]

/-- In every reachable database the post ids are pairwise distinct and
every likes counter is nonnegative. -/
theorem posts_invariant (db : DB) (h : Reachable db) :
    ((db.community_posts.map fun p => p.id).Nodup) ∧
    ∀ p ∈ db.community_posts, 0 ≤ p.likes := by
  induction h with
  | init => exact ⟨List.nodup_nil, by simp [emptyDB]⟩
  | step db op hR ih =>
      obtain ⟨ih1, ih2⟩ := ih
      cases op with
      | submitPost uid post now =>
          constructor
          · simp only [step, List.map_append, List.map_cons, List.map_nil]
            rw [List.nodup_append]
            refine ⟨ih1, List.nodup_singleton _, ?_⟩
            intro a ha hb
            simp only [List.mem_singleton] at hb
            subst hb
            exact freshId_not_mem _ ha
          · intro p hp
            rcases List.mem_append.mp hp with hp1 | hp2
            · exact ih2 p hp1
            · simp only [List.mem_singleton] at hp2
              simp [hp2]
      | likePost i =>
          constructor
          · simp only [step]
            rw [ids_map_likeUpdate]
            exact ih1
          · intro p hp
            simp only [step] at hp
            rcases List.mem_map.mp hp with ⟨q, hq, rfl⟩
            by_cases hid : q.id = i
            · have h3 := ih2 q hq
              rw [if_pos hid]
              show 0 ≤ q.likes + 1
              omega
            · rw [if_neg hid]
              exact ih2 q hq
      | createUser hashpw u p =>
          simp only [step]
          cases hc : create_user hashpw db.users u p with
          | error e => exact ⟨ih1, ih2⟩
          | ok rows => exact ⟨ih1, ih2⟩
      | logWaste uid item q now => exact ⟨ih1, ih2⟩
      | logMeal uid m n now => exact ⟨ih1, ih2⟩
      | setGoal a b c d e => exact ⟨ih1, ih2⟩
      | addChallenge a b c d => exact ⟨ih1, ih2⟩
      | completeGoal i => exact ⟨ih1, ih2⟩
      | completeChallenge i => exact ⟨ih1, ih2⟩
      | writeStats a b c => exact ⟨ih1, ih2⟩

end App10

namespace EcoEats

/-- Claim C5: in every reachable state of the users table the usernames
are pairwise distinct, and create_user invoked with an already stored
username is rejected by the UNIQUE constraint, writing nothing. -/
theorem claim_C5_unique_usernames :
    (∀ rows, App10.UsersReachable rows →
      (rows.map fun r => r.username).Nodup) ∧
    (∀ (hashpw : String → String) rows u p,
      (∃ r ∈ rows, r.username = u) →
      App10.create_user hashpw rows u p =
        .error "UNIQUE constraint failed: users.username") := by
  constructor
  · intro rows h
    induction h with
    | init => simp
    | create rows rows2 hashpw username password _ heq ih =>
        by_cases hb : (rows.any fun r => r.username == username) = true
        · simp only [App10.create_user, if_pos hb] at heq
          cases heq
        · simp only [App10.create_user, if_neg hb] at heq
          cases heq
          have hnotin : ∀ r ∈ rows, ¬r.username = username := by
            simpa using hb
          simp only [List.map_append, List.map_cons, List.map_nil]
          rw [List.nodup_append]
          refine ⟨ih, List.nodup_singleton _, ?_⟩
          intro x hx
          rcases List.mem_map.mp hx with ⟨r, hr, rfl⟩
          simp [hnotin r hr]
  · intro hashpw rows u p hmem
    unfold App10.create_user
    rw [if_pos]
    rcases hmem with ⟨r, hr, hru⟩
    exact List.any_eq_true.mpr ⟨r, hr, by simp [hru]⟩

/-- Witness for claim C5: the table with one user alice is reachable,
its usernames are distinct, and inserting alice again is rejected. -/
theorem claim_C5_unique_usernames_witness :
    (([(⟨1, "alice", "h"⟩ : App10.UserRow)].map fun r => r.username).Nodup) ∧
    App10.create_user (fun _ => "h") [⟨1, "alice", "h"⟩] "alice" "pw" =
      .error "UNIQUE constraint failed: users.username" := by
  constructor
  · exact claim_C5_unique_usernames.1 [⟨1, "alice", "h"⟩]
      (App10.UsersReachable.create [] [⟨1, "alice", "h"⟩] (fun _ => "h")
        "alice" "h" App10.UsersReachable.init (by rfl))
  · exact claim_C5_unique_usernames.2 (fun _ => "h") [⟨1, "alice", "h"⟩]
      "alice" "pw" ⟨⟨1, "alice", "h"⟩, by simp, rfl⟩

end EcoEats

namespace App17

open SqliteSchema

/-- A run of the app17.py setup never fails and establishes: every base
table exists, food_waste has the image column, and meals has the image
and quantity columns. -/
theorem setup17_ok_elim (s0 sOut : Schema) (log : List String)
    (h : setup_database s0 = .ok (sOut, log)) :
    (∀ t ∈ baseTables, hasTable sOut t.1 = true) ∧
    "image" ∈ tableCols sOut "food_waste" ∧
    "image" ∈ tableCols sOut "meals" ∧
    "quantity" ∈ tableCols sOut "meals" := by
  simp only [setup_database] at h
  cases h1 : ensureColumn (createAll s0 baseTables) "food_waste"
      "image" "ALTER TABLE food_waste ADD COLUMN image BLOB"
      (tableCols (createAll s0 baseTables) "food_waste") with
  | error e => rw [h1] at h; cases h
  | ok p2 =>
    obtain ⟨s2, log2⟩ := p2
    rw [h1] at h
    dsimp only at h
    cases h2 : ensureColumn s2 "meals" "image"
        "ALTER TABLE meals ADD COLUMN image BLOB"
        (tableCols s2 "meals") with
    | error e => rw [h2] at h; cases h
    | ok p3 =>
      obtain ⟨s3, log3⟩ := p3
      rw [h2] at h
      dsimp only at h
      cases h3 : ensureColumn s3 "meals" "quantity"
          "ALTER TABLE meals ADD COLUMN quantity INTEGER"
          (tableCols s2 "meals") with
      | error e => rw [h3] at h; cases h
      | ok p4 =>
        obtain ⟨s4, log4⟩ := p4
        rw [h3] at h
        dsimp only at h
        simp only [Except.ok.injEq, Prod.mk.injEq] at h
        obtain ⟨h4, h5⟩ := h
        subst h4
        refine ⟨?_, ?_, ?_, ?_⟩
        · intro t ht
          rw [ensureColumn_hasTable _ _ _ _ _ _ _ h3,
              ensureColumn_hasTable _ _ _ _ _ _ _ h2,
              ensureColumn_hasTable _ _ _ _ _ _ _ h1]
          exact createAll_hasTable_mem _ _ _ (List.mem_map_of_mem Prod.fst ht)
        · rw [ensureColumn_tableCols_ne _ _ _ _ _ _ _ h3 _ (by decide),
              ensureColumn_tableCols_ne _ _ _ _ _ _ _ h2 _ (by decide)]
          exact ensureColumn_col_mem _ _ _ _ _ _ h1
        · exact ensureColumn_tableCols_superset _ _ _ _ _ _ _ h3 _
            (ensureColumn_col_mem _ _ _ _ _ _ h2)
        · rcases ensureColumn_ok_elim _ _ _ _ _ _ _ h3 with
            ⟨hc, rfl, _⟩ | ⟨_, hhas, _, rfl, _⟩
          · exact ensureColumn_tableCols_superset _ _ _ _ _ _ _ h2 _ hc
          · rw [tableCols_addColumn_self _ _ _ hhas]
            exact List.mem_append_right _ (by simp)

/-- On a schema that already has all tables and migrated columns, the
app17.py setup creates nothing, alters nothing and reports success. -/
theorem setup17_noop (s : Schema)
    (hall : ∀ t ∈ baseTables, hasTable s t.1 = true)
    (hfw : "image" ∈ tableCols s "food_waste")
    (hmi : "image" ∈ tableCols s "meals")
    (hmq : "quantity" ∈ tableCols s "meals") :
    setup_database s = .ok (s, []) := by
  simp only [setup_database]
  rw [createAll_eq_of_all _ _ hall]
  rw [ensureColumn_noop _ _ _ _ _ hfw]
  dsimp only
  rw [ensureColumn_noop _ _ _ _ _ hmi]
  dsimp only
  rw [ensureColumn_noop _ _ _ _ _ hmq]
  rfl

end App17

namespace App21

open SqliteSchema

/-- A run of the backup/app21.py setup never fails and establishes:
every base table exists and food_waste has the quantity_type column. -/
theorem setup21_ok_elim (s0 sOut : Schema) (log : List String)
    (h : setup_database s0 = .ok (sOut, log)) :
    (∀ t ∈ baseTables, hasTable sOut t.1 = true) ∧
    "quantity_type" ∈ tableCols sOut "food_waste" := by
  simp only [setup_database] at h
  cases h1 : ensureColumn (createAll s0 baseTables) "food_waste"
      "quantity_type" "ALTER TABLE food_waste ADD COLUMN quantity_type TEXT"
      (tableCols (createAll s0 baseTables) "food_waste") with
  | error e => rw [h1] at h; cases h
  | ok p2 =>
    obtain ⟨s2, log2⟩ := p2
    rw [h1] at h
    dsimp only at h
    simp only [Except.ok.injEq, Prod.mk.injEq] at h
    obtain ⟨h4, h5⟩ := h
    subst h4
    constructor
    · intro t ht
      rw [ensureColumn_hasTable _ _ _ _ _ _ _ h1]
      exact createAll_hasTable_mem _ _ _ (List.mem_map_of_mem Prod.fst ht)
    · exact ensureColumn_col_mem _ _ _ _ _ _ h1

/-- On a schema that already has all tables and the migrated column, the
backup/app21.py setup creates nothing, alters nothing and reports
success. -/
theorem setup21_noop (s : Schema)
    (hall : ∀ t ∈ baseTables, hasTable s t.1 = true)
    (hfw : "quantity_type" ∈ tableCols s "food_waste") :
    setup_database s = .ok (s, []) := by
  simp only [setup_database]
  rw [createAll_eq_of_all _ _ hall]
  rw [ensureColumn_noop _ _ _ _ _ hfw]

end App21

namespace EcoEats

/-- Claim C7: both setup_database variants are idempotent: a run on any
schema a previous run produced creates nothing, performs no ALTER (the
executed statement log is empty), raises no error and returns the schema
unchanged. -/
theorem claim_C7_migration_idempotent
    (s17 s17v s21 s21v : SqliteSchema.Schema) (log17 log21 : List String) :
    (App17.setup_database s17 = .ok (s17v, log17) →
      App17.setup_database s17v = .ok (s17v, [])) ∧
    (App21.setup_database s21 = .ok (s21v, log21) →
      App21.setup_database s21v = .ok (s21v, [])) := by
  constructor
  · intro h
    obtain ⟨hall, hfw, hmi, hmq⟩ := App17.setup17_ok_elim _ _ _ h
    exact App17.setup17_noop _ hall hfw hmi hmq
  · intro h
    obtain ⟨hall, hfw⟩ := App21.setup21_ok_elim _ _ _ h
    exact App21.setup21_noop _ hall hfw

/-- Claim C6: in every state reachable through the cited inserts, the
ids auto-assigned per table are pairwise distinct, every food_waste date
is the isoformat rendering of a representable instant, and every
challenge start and end date is the isoformat rendering of a
representable date. -/
theorem claim_C6_iso_dates_and_ids (db : LogDB) (h : LogReachable db) :
    ((db.food_waste.map fun r => r.id).Nodup) ∧
    ((db.challenges.map fun r => r.id).Nodup) ∧
    (∀ r ∈ db.food_waste, ∃ t : DateTime, t.valid ∧ r.date = t.isoformat) ∧
    (∀ c ∈ db.challenges,
      (∃ d : Date, d.valid ∧ c.start_date = d.isoformat) ∧
      (∃ d : Date, d.valid ∧ c.end_date = d.isoformat)) := by
  induction h with
  | init => exact ⟨List.nodup_nil, List.nodup_nil, by simp, by simp⟩
  | stepWaste db item q qt now img hR hv ih =>
      obtain ⟨ih1, ih2, ih3, ih4⟩ := ih
      refine ⟨?_, ih2, ?_, ih4⟩
      · simp only [logWaste, List.map_append, List.map_cons, List.map_nil]
        rw [List.nodup_append]
        refine ⟨ih1, List.nodup_singleton _, ?_⟩
        intro a ha hb
        simp only [List.mem_singleton] at hb
        subst hb
        exact App10.freshId_not_mem _ ha
      · intro r hr
        rcases List.mem_append.mp hr with h1 | h2
        · exact ih3 r h1
        · simp only [List.mem_singleton] at h2
          subst h2
          exact ⟨now, hv, rfl⟩
  | stepChallenge db ch today endDate hR hv1 hEq hv2 ih =>
      obtain ⟨ih1, ih2, ih3, ih4⟩ := ih
      refine ⟨ih1, ?_, ih3, ?_⟩
      · simp only [create_new_challenge, List.map_append, List.map_cons,
          List.map_nil]
        rw [List.nodup_append]
        refine ⟨ih2, List.nodup_singleton _, ?_⟩
        intro a ha hb
        simp only [List.mem_singleton] at hb
        subst hb
        exact App10.freshId_not_mem _ ha
      · intro c hc
        rcases List.mem_append.mp hc with h1 | h2
        · exact ih4 c h1
        · simp only [List.mem_singleton] at h2
          subst h2
          refine ⟨⟨today, hv1, rfl⟩, ⟨endDate, hv2, ?_⟩⟩
          rw [hEq]

/-- Witness for claim C6: one waste log on new year noon 2024 followed
by a challenge created on 2024-02-27, whose seven-day horizon crosses
the leap day. -/
theorem claim_C6_iso_dates_and_ids_witness :
    (((create_new_challenge
        (logWaste ⟨[], []⟩ "apple" 100 "Solid (grams)"
          ⟨⟨2024, 1, 1⟩, 12, 0, 0, 500⟩ none)
        "ch" ⟨2024, 2, 27⟩).challenges.map fun r => r.id).Nodup) ∧
    (∃ t : DateTime, t.valid ∧
      (⟨1, "apple", 100, "Solid (grams)",
        DateTime.isoformat ⟨⟨2024, 1, 1⟩, 12, 0, 0, 500⟩, none⟩ :
        FoodWasteRow).date = t.isoformat) := by
  have h := claim_C6_iso_dates_and_ids _
    (LogReachable.stepChallenge _ "ch" ⟨2024, 2, 27⟩ ⟨2024, 3, 5⟩
      (LogReachable.stepWaste _ "apple" 100 "Solid (grams)"
        ⟨⟨2024, 1, 1⟩, 12, 0, 0, 500⟩ none LogReachable.init (by decide))
      (by decide) (by decide) (by decide))
  refine ⟨h.2.1, h.2.2.1 _ ?_⟩
  decide

/-- Counterexample to claim C4 as stated: the like button runs UPDATE
community_posts SET likes = likes + 1, so on a database holding one post
with zero likes the stored row changes in its likes column, which is not
a completed flag; hence not every mutation of an existing row is a
completed-flag update. -/
theorem claim_C4_counterexample : ¬App10.OnlyCompletedMutated := by
  intro h
  have h2 := (h (.likePost 1)
    { App10.emptyDB with community_posts := [⟨1, 1, "hi", 0, "d"⟩] }).2.2.2.1
  have h3 := h2 ⟨1, 1, "hi", 0, "d"⟩ (by simp)
  exact absurd h3 (by decide)

/-- Claim C4 amended: no operation deletes a row of users, food_waste,
meals, goals, challenges or community_posts, and the only changes ever
applied to an existing row are raising the completed flag of a goal or a
challenge, incrementing the likes counter of a post by one, and the
INSERT OR REPLACE of update_streak, which replaces the user_stats row
sharing the written UNIQUE user_id; rows of all other tables survive
bit-for-bit. -/
theorem claim_C4_frame_effects (op : App10.Op) (db : App10.DB) :
    App10.RowsIntact db.users (App10.step op db).users ∧
    App10.RowsIntact db.food_waste (App10.step op db).food_waste ∧
    App10.RowsIntact db.meals (App10.step op db).meals ∧
    (∀ g ∈ db.goals, ∃ g2 ∈ (App10.step op db).goals,
      App10.goalFrameOK g g2 ∧
      (g2.completed = g.completed ∨ g2.completed = true)) ∧
    (∀ c ∈ db.challenges, ∃ c2 ∈ (App10.step op db).challenges,
      App10.challengeFrameOK c c2 ∧
      (c2.completed = c.completed ∨ c2.completed = true)) ∧
    (∀ p ∈ db.community_posts, ∃ p2 ∈ (App10.step op db).community_posts,
      App10.postFrameOK p p2) ∧
    (∀ r ∈ db.user_stats, r ∈ (App10.step op db).user_stats ∨
      ∃ uid today streak, op = .writeStats uid today streak ∧
        r.user_id = uid) :=
  ⟨App10.step_users_intact op db, App10.step_waste_intact op db,
   App10.step_meals_intact op db, App10.step_goals_frame op db,
   App10.step_challenges_frame op db, App10.step_posts_frame op db,
   App10.step_stats_frame op db⟩

/-- Witness for claim C4 amended: completing goal 1 on a database with a
single stored goal keeps the row with only its completed flag raised. -/
theorem claim_C4_frame_effects_witness :
    ∃ g2 ∈ (App10.step (App10.Op.completeGoal 1)
        { App10.emptyDB with
          goals := [⟨1, 1, "t", "g", "r", "d", false⟩] }).goals,
      App10.goalFrameOK ⟨1, 1, "t", "g", "r", "d", false⟩ g2 ∧
        (g2.completed = false ∨ g2.completed = true) :=
  (claim_C4_frame_effects (App10.Op.completeGoal 1)
    { App10.emptyDB with goals := [⟨1, 1, "t", "g", "r", "d", false⟩] }
    ).2.2.2.1 ⟨1, 1, "t", "g", "r", "d", false⟩ (by simp)

/-- Claim C10: a submitted post is inserted with zero likes; in every
reachable database every likes counter is nonnegative and post ids are
distinct; and liking a post id increments the likes of the row carrying
that id by exactly one while keeping every other row unchanged, keeping
the row count, and that id picks out at most one row. -/
theorem claim_C10_community_likes (db : App10.DB) (h : App10.Reachable db)
    (i : Int) (p : App10.PostRow) :
    (∀ uid post now,
      (App10.step (.submitPost uid post now) db).community_posts =
        db.community_posts ++
          [⟨EcoEats.freshId (db.community_posts.map fun r => r.id),
            uid, post, 0, now⟩]) ∧
    (∀ q ∈ db.community_posts, 0 ≤ q.likes) ∧
    (p ∈ db.community_posts → p.id = i →
      ({ p with likes := p.likes + 1 } ∈
          (App10.step (.likePost i) db).community_posts ∧
       (∀ q ∈ db.community_posts, q.id ≠ i →
          q ∈ (App10.step (.likePost i) db).community_posts) ∧
       ((App10.step (.likePost i) db).community_posts).length =
          db.community_posts.length ∧
       (∀ q ∈ db.community_posts, q.id = i → q = p))) := by
  obtain ⟨hnd, hpos⟩ := App10.posts_invariant db h
  refine ⟨fun uid post now => rfl, hpos, fun hp hpi => ⟨?_, ?_, ?_, ?_⟩⟩
  · have h2 := List.mem_map_of_mem
      (fun q : App10.PostRow =>
        if q.id = i then { q with likes := q.likes + 1 } else q) hp
    simpa [App10.step, hpi] using h2
  · intro q hq hqi
    have h2 := List.mem_map_of_mem
      (fun q : App10.PostRow =>
        if q.id = i then { q with likes := q.likes + 1 } else q) hq
    simpa [App10.step, hqi] using h2
  · exact List.length_map _ _
  · intro q hq hqi
    exact List.inj_on_of_nodup_map hnd hq hp (by simp [hqi, hpi])

/-- Witness for claim C10: after submitting one post, its likes counter
is zero-or-more and liking id 1 yields the incremented row. -/
theorem claim_C10_community_likes_witness :
    0 ≤ (⟨1, 7, "hello", 0, "d"⟩ : App10.PostRow).likes ∧
    (⟨1, 7, "hello", 1, "d"⟩ : App10.PostRow) ∈
      (App10.step (.likePost 1)
        (App10.step (.submitPost 7 "hello" "d")
          App10.emptyDB)).community_posts := by
  have h := claim_C10_community_likes
    (App10.step (.submitPost 7 "hello" "d") App10.emptyDB)
    (App10.Reachable.step _ _ App10.Reachable.init) 1
    ⟨1, 7, "hello", 0, "d"⟩
  refine ⟨h.2.1 ⟨1, 7, "hello", 0, "d"⟩ (by decide), ?_⟩
  exact (h.2.2 (by decide) rfl).1

/-- Witness for claim C7: the second run on the schema a first run
produced from an empty database returns it unchanged with no ALTER. -/
theorem claim_C7_migration_idempotent_witness :
    App17.setup_database App17.migratedSchema =
      .ok (App17.migratedSchema, []) ∧
    App21.setup_database App21.migratedSchema =
      .ok (App21.migratedSchema, []) := by
  constructor
  · exact (claim_C7_migration_idempotent [] App17.migratedSchema []
      App21.migratedSchema App17.alterLog App21.alterLog).1 (by rfl)
  · exact (claim_C7_migration_idempotent [] App17.migratedSchema []
      App21.migratedSchema App17.alterLog App21.alterLog).2 (by rfl)

end EcoEats
